import Mathlib

/-!
Shallow embedding of the Telegram bulk messenger (src/main.py) and proofs of
the specification claims C1-C10.

The external Telegram client (telethon) is modelled as an environment: for
each iteration of the retry loop it yields one event (entity resolution
failure, successful send, or one of the exception classes the code catches),
and for each recipient of the bulk driver it yields either such a per-attempt
environment, an unexpected exception, or a keyboard interrupt.  Everything
else (the retry loop `send_message_with_retry`, the progress store
`save_progress`/`load_progress`, and the driver loop `send_bulk_messages`)
is translated directly from the source.
-/

set_option maxHeartbeats 1000000

namespace TelegramBulk

/-- One event produced by the external client during one iteration of the
retry loop in `send_message_with_retry` (src/main.py lines 141-186):
`resolveFail` models `validate_user` returning `None`; `sendOk` a successful
`client.send_message`; `floodWait` a `FloodWaitError` carrying the mandated
wait in seconds; `privacyError` a `UserPrivacyRestrictedError` or
`UserNotMutualContactError`; `peerError` a `PeerIdInvalidError` or
`ChatWriteForbiddenError`; `genericError` any other exception (its message).
Every event other than `resolveFail` presupposes that resolution succeeded
and a send was attempted. -/
inductive AttemptEvent where
  | resolveFail : AttemptEvent
  | sendOk : AttemptEvent
  | floodWait (seconds : Nat) : AttemptEvent
  | privacyError : AttemptEvent
  | peerError : AttemptEvent
  | genericError (msg : String) : AttemptEvent
deriving DecidableEq, Repr

/-- Whether the event makes the retry loop proceed to its next iteration
(the `continue` after a flood wait, or the non-final generic-error retry);
all other events return from the function. -/
def AttemptEvent.continues : AttemptEvent → Bool
  | .floodWait _ => true
  | .genericError _ => true
  | _ => false

/-- The per-recipient result dictionary built by `send_message_with_retry`
(src/main.py lines 134-139). -/
structure SendResult where
  user : String
  status : String
  error : Option String
  timestamp : String
deriving DecidableEq, Repr

/-- The run statistics counters `self.stats` (src/main.py lines 39-44). -/
structure Stats where
  sent : Nat
  failed : Nat
  skipped : Nat
  total : Nat
deriving DecidableEq, Repr

/-- The configuration dataclass (src/main.py lines 20-28).  The credential
fields play no role in the delivery logic but are kept for fidelity. -/
structure Config where
  api_id : Int := 0
  api_hash : String := ""
  phone_number : String := ""
  session_name : String := "bulk_sender"
  message_delay : Nat := 60
  max_retries : Nat := 3
  batch_size : Nat := 100
deriving DecidableEq, Repr

/-- Observable outcome of one call to `send_message_with_retry`: the result
dictionary, the updated stats, the chronological list of sleep durations the
call performed, and the number of times `client.send_message` was invoked
(a delivery attempt; resolution failures invoke no send). -/
structure SendOutcome where
  result : SendResult
  stats : Stats
  sleeps : List Nat
  sendCalls : Nat
deriving DecidableEq, Repr

/-- The body of the `for attempt in range(self.config.max_retries)` loop of
`send_message_with_retry` (src/main.py lines 141-186).  `attempt` is the
current loop index, the second argument the number of remaining iterations,
and `res` the result dictionary mutated in place by the Python code.  Note
that a `FloodWaitError` sleeps the mandated time and then `continue`s, which
advances the bounded loop; a generic error on the final iteration increments
the failed counter and returns; exhausting the loop returns the result
dictionary as-is (line 186). -/
def sendAux (env : Nat → AttemptEvent) (u t : String) (st : Stats) :
    Nat → Nat → SendResult → SendOutcome
  | _, 0, res => { result := res, stats := st, sleeps := [], sendCalls := 0 }
  | attempt, r + 1, res =>
    match env attempt with
    | .resolveFail =>
        { result := { res with error := some "User not found or invalid", status := "skipped" },
          stats := st, sleeps := [], sendCalls := 0 }
    | .sendOk =>
        { result := { res with status := "sent", error := none },
          stats := { st with sent := st.sent + 1 }, sleeps := [], sendCalls := 1 }
    | .floodWait w =>
        let rest := sendAux env u t st (attempt + 1) r res
        { result := rest.result, stats := rest.stats,
          sleeps := w :: rest.sleeps, sendCalls := rest.sendCalls + 1 }
    | .privacyError =>
        { result :=
            { res with error := some "Privacy settings prevent messaging", status := "skipped" },
          stats := { st with skipped := st.skipped + 1 }, sleeps := [], sendCalls := 1 }
    | .peerError =>
        { result :=
            { res with error := some "Invalid peer or messaging forbidden", status := "skipped" },
          stats := { st with skipped := st.skipped + 1 }, sleeps := [], sendCalls := 1 }
    | .genericError m =>
        let res1 := { res with error := some m }
        if r = 0 then
          { result := res1, stats := { st with failed := st.failed + 1 },
            sleeps := [], sendCalls := 1 }
        else
          let rest := sendAux env u t st (attempt + 1) r res1
          { result := rest.result, stats := rest.stats,
            sleeps := 5 :: rest.sleeps, sendCalls := rest.sendCalls + 1 }

/-- `send_message_with_retry` (src/main.py lines 132-186): initialises the
result dictionary with status `failed` and runs the bounded retry loop. -/
def send_message_with_retry (cfg : Config) (env : Nat → AttemptEvent)
    (user message timestamp : String) (st : Stats) : SendOutcome :=
  sendAux env user timestamp st 0 cfg.max_retries
    { user := user, status := "failed", error := none, timestamp := timestamp }

/-- State of the persisted file `data/sent_users.json`: absent, present and
parseable as a list of identifiers, or unreadable/unparseable. -/
inductive SentFile where
  | absent : SentFile
  | good (l : List String) : SentFile
  | bad : SentFile
deriving DecidableEq, Repr

/-- State of the persisted file `data/failed_users.json`: absent, present and
parseable as a list of outcome records, or unreadable/unparseable. -/
inductive FailedFile where
  | absent : FailedFile
  | good (l : List SendResult) : FailedFile
  | bad : FailedFile
deriving DecidableEq, Repr

/-- The durable storage holding the two progress files. -/
structure Store where
  sentFile : SentFile
  failedFile : FailedFile
deriving DecidableEq, Repr

/-- `save_progress` (src/main.py lines 85-98) on its successful path:
overwrites both progress files with JSON dumps of the two collections. -/
def save_progress (s : Store) (sent_users : List String)
    (failed_users : List SendResult) : Store :=
  { s with sentFile := .good sent_users, failedFile := .good failed_users }

/-- `load_progress` (src/main.py lines 100-118).  Both loads run inside one
try/except: a failure while reading the sent file returns before the failed
file is touched, so both collections come back empty; a failure while
reading the failed file happens after `sent_users` was already assigned, so
the loaded sent list is returned together with an empty failed list.  Absent
files leave the corresponding default empty list in place.  The except
handler swallows every exception, so the function always returns a pair. -/
def load_progress (s : Store) : List String × List SendResult :=
  match s.sentFile with
  | .bad => ([], [])
  | .absent =>
      match s.failedFile with
      | .good l => ([], l)
      | _ => ([], [])
  | .good ls =>
      match s.failedFile with
      | .good l => (ls, l)
      | _ => (ls, [])

/-- External behaviour of one iteration of the driver loop of
`send_bulk_messages`: either `send_message_with_retry` runs normally under a
per-attempt environment, or an unexpected exception escapes to the
per-recipient `except Exception` handler (src/main.py lines 236-238), or a
`KeyboardInterrupt` arrives (lines 232-235). -/
inductive RecipientBehavior where
  | outcome (env : Nat → AttemptEvent) : RecipientBehavior
  | unexpectedError : RecipientBehavior
  | interrupt : RecipientBehavior

/-- In-memory driver state: the two progress collections, the stats
counters, and the durable store. -/
structure DriverState where
  sent : List String
  failed : List SendResult
  stats : Stats
  store : Store
deriving DecidableEq, Repr

/-- Observable events of a driver run: an invocation of
`send_message_with_retry` for an identifier, a `save_progress` checkpoint
(with the snapshot written and the stats at that moment), and an
inter-message delay. -/
inductive DriverEv where
  | call (user : String) : DriverEv
  | save (sent : List String) (failed : List SendResult) (stats : Stats) : DriverEv
  | sleep (seconds : Nat) : DriverEv
deriving DecidableEq, Repr

/-- The resume filter of `send_bulk_messages` (src/main.py lines 195-196):
drops every identifier already present in the loaded sent list or among the
identifiers of the loaded failed/skipped records. -/
def remainingUsers (users sent0 : List String) (failed0 : List SendResult) : List String :=
  users.filter fun u => !(sent0.contains u || (failed0.map (fun r => r.user)).contains u)

/-- The routing of a delivery result into the sent list (src/main.py lines
217-218): append the identifier when the status is `sent`. -/
def routedSent (sent : List String) (u : String) (res : SendResult) : List String :=
  if res.status = "sent" then sent ++ [u] else sent

/-- The routing of a delivery result into the failed/skipped list
(src/main.py lines 219-220): append the result record when the status is
`failed` or `skipped`. -/
def routedFailed (failed : List SendResult) (res : SendResult) : List SendResult :=
  if res.status = "sent" then failed
  else if res.status = "failed" ∨ res.status = "skipped" then failed ++ [res]
  else failed

/-- The `for i, user in enumerate(users, 1)` loop of `send_bulk_messages`
(src/main.py lines 210-238).  `n` is the length of the (already filtered)
working list, `i` the 1-based index.  A normal iteration sends, routes the
result into the sent list or the failed/skipped list, checkpoints when
`i % 10 == 0`, and sleeps `message_delay` when `i < n`.  A
`KeyboardInterrupt` saves the current progress and breaks out of the loop;
an unexpected exception logs and `continue`s, recording nothing. -/
def bulkLoop (cfg : Config) (benv : Nat → RecipientBehavior) (message timestamp : String)
    (n : Nat) : List String → Nat → DriverState → DriverState × List DriverEv
  | [], _, st => (st, [])
  | u :: rest, i, st =>
    match benv i with
    | .interrupt =>
        ({ st with store := save_progress st.store st.sent st.failed },
         [.call u, .save st.sent st.failed st.stats])
    | .unexpectedError =>
        let r := bulkLoop cfg benv message timestamp n rest (i + 1) st
        (r.1, .call u :: r.2)
    | .outcome env =>
        let o := send_message_with_retry cfg env u message timestamp st.stats
        let sent1 := routedSent st.sent u o.result
        let failed1 := routedFailed st.failed o.result
        let store1 := if i % 10 = 0 then save_progress st.store sent1 failed1 else st.store
        let evs1 : List DriverEv := if i % 10 = 0 then [.save sent1 failed1 o.stats] else []
        let evs2 : List DriverEv := if i < n then [.sleep cfg.message_delay] else []
        let r := bulkLoop cfg benv message timestamp n rest (i + 1)
          { sent := sent1, failed := failed1, stats := o.stats, store := store1 }
        (r.1, .call u :: (evs1 ++ (evs2 ++ r.2)))

/-- `send_bulk_messages` (src/main.py lines 188-242): optionally loads and
filters against prior progress, sets `stats['total']`, returns early when
nothing is left to process (line 203, note: without saving), otherwise runs
the loop and performs the final save (line 241). -/
def send_bulk_messages (cfg : Config) (benv : Nat → RecipientBehavior) (users : List String)
    (message timestamp : String) (resume : Bool) (store : Store) (st : Stats) :
    DriverState × List DriverEv :=
  let loaded := if resume then load_progress store else ([], [])
  let users1 := if resume then remainingUsers users loaded.1 loaded.2 else users
  let st0 : DriverState :=
    { sent := loaded.1, failed := loaded.2,
      stats := { st with total := users1.length }, store := store }
  if users1 = [] then (st0, [])
  else
    let r := bulkLoop cfg benv message timestamp users1.length users1 1 st0
    ({ r.1 with store := save_progress r.1.store r.1.sent r.1.failed },
     r.2 ++ [.save r.1.sent r.1.failed r.1.stats])

/-- The checkpoint snapshots of a driver trace, in order. -/
def savesOf : List DriverEv → List (List String × List SendResult)
  | [] => []
  | .save s f _ :: tr => (s, f) :: savesOf tr
  | _ :: tr => savesOf tr

/-- Mutual exclusion of the two progress collections: no identifier is both
in the sent list and the identifier of a failed/skipped record. -/
def Exclusive (sent : List String) (failed : List SendResult) : Prop :=
  ∀ u ∈ sent, ∀ r ∈ failed, r.user ≠ u

instance (sent : List String) (failed : List SendResult) :
    Decidable (Exclusive sent failed) :=
  inferInstanceAs (Decidable (∀ u ∈ sent, ∀ r ∈ failed, r.user ≠ u))

/-- Number of failed/skipped records carrying a given status. -/
def countStatus (l : List SendResult) (s : String) : Nat :=
  (l.filter fun r => r.status == s).length

/-- Reconstructability of the stats counters from a progress snapshot: the
sent counter equals the sent-list length and the skipped/failed counters are
bounded by the respective record counts. -/
def StatsInvP (sent : List String) (failed : List SendResult) (sst : Stats) : Prop :=
  sst.sent = sent.length
  ∧ sst.skipped ≤ countStatus failed "skipped"
  ∧ sst.failed ≤ countStatus failed "failed"

end TelegramBulk

namespace TelegramBulk

/-- The retry loop never changes the `user` field of the result dictionary. -/
theorem sendAux_user (env : Nat → AttemptEvent) (u t : String) (st : Stats) :
    ∀ r a res, (sendAux env u t st a r res).result.user = res.user := by
  intro r
  induction r with
  | zero => intro a res; rfl
  | succ k ih =>
    intro a res
    cases h : env a with
    | resolveFail => simp [sendAux, h]
    | sendOk => simp [sendAux, h]
    | floodWait w => simp [sendAux, h, ih]
    | privacyError => simp [sendAux, h]
    | peerError => simp [sendAux, h]
    | genericError m =>
      by_cases hk : k = 0
      · subst hk; simp [sendAux, h]
      · simp [sendAux, h, hk, ih]

/-- Classification of a finished retry loop run that started from a result
dictionary with status `failed`: the final status is one of the three
Python values, and the stats change matches it — except that a skip caused
by an unresolvable user and a failure caused by flood-wait exhaustion leave
the corresponding counter untouched. -/
theorem sendAux_status_stats (env : Nat → AttemptEvent) (u t : String) (st : Stats) :
    ∀ r a res, res.status = "failed" →
      ((sendAux env u t st a r res).result.status = "sent"
          ∧ (sendAux env u t st a r res).stats = { st with sent := st.sent + 1 })
      ∨ ((sendAux env u t st a r res).result.status = "skipped"
          ∧ ((sendAux env u t st a r res).stats = st
             ∨ (sendAux env u t st a r res).stats = { st with skipped := st.skipped + 1 }))
      ∨ ((sendAux env u t st a r res).result.status = "failed"
          ∧ ((sendAux env u t st a r res).stats = st
             ∨ (sendAux env u t st a r res).stats = { st with failed := st.failed + 1 })) := by
  intro r
  induction r with
  | zero =>
    intro a res hres
    right; right
    exact ⟨hres, Or.inl rfl⟩
  | succ k ih =>
    intro a res hres
    cases h : env a with
    | resolveFail => right; left; simp [sendAux, h]
    | sendOk => left; simp [sendAux, h]
    | floodWait w =>
      have := ih (a + 1) res hres
      simpa [sendAux, h] using this
    | privacyError => right; left; simp [sendAux, h]
    | peerError => right; left; simp [sendAux, h]
    | genericError m =>
      by_cases hk : k = 0
      · subst hk
        right; right
        simp [sendAux, h, hres]
      · have := ih (a + 1) { res with error := some m } hres
        simpa [sendAux, h, hk] using this

/-- When the first `k` iterations of the retry loop all proceed (flood waits
or non-final generic errors) and iteration `k` hits a flood wait of `w`
seconds, the `k`-th sleep performed by the loop is exactly `w`: the mandated
wait happens before the next attempt. -/
theorem sendAux_sleeps_get (env : Nat → AttemptEvent) (u t : String) (st : Stats) (w : Nat) :
    ∀ k r a res, k < r → (∀ j, j < k → (env (a + j)).continues = true) →
      env (a + k) = .floodWait w →
      ((sendAux env u t st a r res).sleeps)[k]? = some w := by
  intro k
  induction k with
  | zero =>
    intro r a res hr _ he
    obtain ⟨r', rfl⟩ : ∃ r', r = r' + 1 := ⟨r - 1, by omega⟩
    have ha : env a = .floodWait w := by simpa using he
    simp [sendAux, ha]
  | succ k ih =>
    intro r a res hr hcont he
    obtain ⟨r', rfl⟩ : ∃ r', r = r' + 1 := ⟨r - 1, by omega⟩
    have h0 : (env a).continues = true := by
      have := hcont 0 (by omega)
      simpa using this
    have hshift : ∀ j, j < k → (env (a + 1 + j)).continues = true := by
      intro j hj
      have := hcont (j + 1) (by omega)
      have harith : a + (j + 1) = a + 1 + j := by omega
      rwa [harith] at this
    have he1 : env (a + 1 + k) = .floodWait w := by
      have harith : a + (k + 1) = a + 1 + k := by omega
      rwa [harith] at he
    cases h : env a with
    | resolveFail => rw [h] at h0; simp [AttemptEvent.continues] at h0
    | sendOk => rw [h] at h0; simp [AttemptEvent.continues] at h0
    | privacyError => rw [h] at h0; simp [AttemptEvent.continues] at h0
    | peerError => rw [h] at h0; simp [AttemptEvent.continues] at h0
    | floodWait w' =>
      have := ih r' (a + 1) res (by omega) hshift he1
      simp [sendAux, h, this]
    | genericError m =>
      have hk' : ¬ r' = 0 := by omega
      have := ih r' (a + 1) { res with error := some m } (by omega) hshift he1
      simp [sendAux, h, hk', this]

/-- When every iteration of the retry loop hits a flood wait, the loop
exhausts without touching the result dictionary or the stats. -/
theorem sendAux_all_flood (env : Nat → AttemptEvent) (u t : String) (st : Stats) :
    ∀ r a res, (∀ j, j < r → ∃ w, env (a + j) = .floodWait w) →
      (sendAux env u t st a r res).result = res ∧ (sendAux env u t st a r res).stats = st := by
  intro r
  induction r with
  | zero => intro a res _; exact ⟨rfl, rfl⟩
  | succ k ih =>
    intro a res h
    obtain ⟨w, hw⟩ := h 0 (by omega)
    have ha : env a = .floodWait w := by simpa using hw
    have hshift : ∀ j, j < k → ∃ w', env (a + 1 + j) = .floodWait w' := by
      intro j hj
      obtain ⟨w', hw'⟩ := h (j + 1) (by omega)
      exact ⟨w', by rwa [show a + (j + 1) = a + 1 + j by omega] at hw'⟩
    have := ih (a + 1) res hshift
    simp [sendAux, ha, this.1, this.2]

/-- One non-final generic-error iteration: set the error message, sleep 5
seconds, and loop back with one attempt slot consumed. -/
theorem sendAux_generic_step (env : Nat → AttemptEvent) (u t : String) (st : Stats)
    (a r : Nat) (res : SendResult) (m : String)
    (hcond : env a = .genericError m) (hk : ¬ r = 0) :
    sendAux env u t st a (r + 1) res
      = { result := (sendAux env u t st (a + 1) r { res with error := some m }).result,
          stats := (sendAux env u t st (a + 1) r { res with error := some m }).stats,
          sleeps := 5 :: (sendAux env u t st (a + 1) r { res with error := some m }).sleeps,
          sendCalls :=
            (sendAux env u t st (a + 1) r { res with error := some m }).sendCalls + 1 } := by
  conv_lhs => rw [sendAux]
  rw [hcond]
  simp [hk]

/-- The retry loop under an environment that raises a generic error on every
iteration: each of the `r + 1` iterations overwrites the error message (the
last one wins), the final one increments the failed counter and returns, and
each non-final one sleeps 5 seconds before retrying. -/
theorem sendAux_generic (u t : String) (st : Stats) (m : Nat → String) :
    ∀ r a res, sendAux (fun j => .genericError (m j)) u t st a (r + 1) res
      = { result := { res with error := some (m (a + r)) },
          stats := { st with failed := st.failed + 1 },
          sleeps := List.replicate r 5, sendCalls := r + 1 } := by
  intro r
  induction r with
  | zero => intro a res; rfl
  | succ k ih =>
    intro a res
    have hk : ¬ (k + 1 = 0) := by omega
    rw [sendAux_generic_step (fun j => .genericError (m j)) u t st a (k + 1) res (m a)
      rfl hk, ih]
    have harith : a + 1 + k = a + (k + 1) := by omega
    rw [harith]
    simp [List.replicate_succ]

/-- The result dictionary returned by `send_message_with_retry` carries the
identifier it was called for. -/
theorem send_user (cfg : Config) (env : Nat → AttemptEvent)
    (user message timestamp : String) (st : Stats) :
    (send_message_with_retry cfg env user message timestamp st).result.user = user := by
  rw [send_message_with_retry]
  exact sendAux_user env user timestamp st cfg.max_retries 0
    { user := user, status := "failed", error := none, timestamp := timestamp }

/-- Top-level form of `sendAux_status_stats` for `send_message_with_retry`. -/
theorem send_status_stats (cfg : Config) (env : Nat → AttemptEvent)
    (user message timestamp : String) (st : Stats) :
    ((send_message_with_retry cfg env user message timestamp st).result.status = "sent"
        ∧ (send_message_with_retry cfg env user message timestamp st).stats
            = { st with sent := st.sent + 1 })
    ∨ ((send_message_with_retry cfg env user message timestamp st).result.status = "skipped"
        ∧ ((send_message_with_retry cfg env user message timestamp st).stats = st
           ∨ (send_message_with_retry cfg env user message timestamp st).stats
               = { st with skipped := st.skipped + 1 }))
    ∨ ((send_message_with_retry cfg env user message timestamp st).result.status = "failed"
        ∧ ((send_message_with_retry cfg env user message timestamp st).stats = st
           ∨ (send_message_with_retry cfg env user message timestamp st).stats
               = { st with failed := st.failed + 1 })) := by
  rw [send_message_with_retry]
  exact sendAux_status_stats env user timestamp st cfg.max_retries 0
    { user := user, status := "failed", error := none, timestamp := timestamp } rfl

end TelegramBulk

namespace TelegramBulk

/-- C1 (amended).  Whenever the delivery attempt at reachable iteration `k`
raises a rate-limit error demanding a wait of `w` seconds,
`send_message_with_retry` sleeps exactly `w` seconds before the next
attempt (the `k`-th sleep of the call is `w`).  However, each rate-limit
event consumes one iteration of the bounded loop: when every one of the
`max_retries` iterations raises a rate-limit error, the loop exhausts and
the recipient's terminal outcome is status `failed`. -/
theorem floodwait_sleep_and_exhaustion (cfg : Config) (env : Nat → AttemptEvent)
    (user message timestamp : String) (st : Stats) :
    (∀ k w, k < cfg.max_retries → (∀ j, j < k → (env j).continues = true) →
       env k = .floodWait w →
       ((send_message_with_retry cfg env user message timestamp st).sleeps)[k]? = some w)
    ∧ ((∀ j, j < cfg.max_retries → ∃ w, env j = .floodWait w) →
       (send_message_with_retry cfg env user message timestamp st).result.status
         = "failed") := by
  constructor
  · intro k w hk hcont he
    have := sendAux_sleeps_get env user timestamp st w k cfg.max_retries 0
      { user := user, status := "failed", error := none, timestamp := timestamp }
      hk (by simpa using hcont) (by simpa using he)
    simpa [send_message_with_retry] using this
  · intro h
    have := sendAux_all_flood env user timestamp st cfg.max_retries 0
      { user := user, status := "failed", error := none, timestamp := timestamp }
      (by simpa using h)
    simp only [send_message_with_retry, this.1]

/-- C1 counterexample.  With `max_retries = 3` and every delivery attempt
raising a rate-limit error, every event in the run is a rate-limit event
(the call performs the three mandated 30-second sleeps), yet the terminal
outcome is status `failed`: the outcome is Failed solely because of
rate-limit events, contradicting the claim. -/
theorem floodwait_exhaustion_returns_failed :
    (send_message_with_retry { max_retries := 3 } (fun _ => .floodWait 30) "alice" "hello"
        "t0" ⟨0, 0, 0, 0⟩).result.status = "failed"
    ∧ (send_message_with_retry { max_retries := 3 } (fun _ => .floodWait 30) "alice" "hello"
        "t0" ⟨0, 0, 0, 0⟩).sleeps = [30, 30, 30] :=
  ⟨rfl, rfl⟩

/-- C1 witness: iteration 0 demands a 7-second wait, so the first sleep is
7 seconds; and a run whose two iterations both demand waits ends Failed. -/
theorem floodwait_sleep_and_exhaustion_witness :
    ((send_message_with_retry { max_retries := 3 }
        (fun j => if j = 0 then .floodWait 7 else .sendOk) "bob" "hi" "t0"
        ⟨0, 0, 0, 0⟩).sleeps)[0]? = some 7
    ∧ (send_message_with_retry { max_retries := 2 } (fun _ => .floodWait 9) "bob" "hi" "t0"
        ⟨0, 0, 0, 0⟩).result.status = "failed" :=
  ⟨(floodwait_sleep_and_exhaustion { max_retries := 3 }
      (fun j => if j = 0 then .floodWait 7 else .sendOk) "bob" "hi" "t0" ⟨0, 0, 0, 0⟩).1
      0 7 (by decide) (fun j hj => absurd hj (Nat.not_lt_zero j)) rfl,
   (floodwait_sleep_and_exhaustion { max_retries := 2 }
      (fun _ => .floodWait 9) "bob" "hi" "t0" ⟨0, 0, 0, 0⟩).2
      (fun j _ => ⟨9, rfl⟩)⟩

/-- C2.  With `max_retries = N ≥ 1` and every delivery attempt raising a
generic error (resolution succeeding each time), `send_message_with_retry`
performs exactly `N` delivery attempts, sleeps 5 seconds between
consecutive attempts (`N - 1` five-second sleeps), and returns an outcome
with status `failed`. -/
theorem generic_error_retries_exactly_max (cfg : Config) (m : Nat → String)
    (user message timestamp : String) (st : Stats) (h : 1 ≤ cfg.max_retries) :
    (send_message_with_retry cfg (fun j => .genericError (m j)) user message timestamp
        st).sendCalls = cfg.max_retries
    ∧ (send_message_with_retry cfg (fun j => .genericError (m j)) user message timestamp
        st).sleeps = List.replicate (cfg.max_retries - 1) 5
    ∧ (send_message_with_retry cfg (fun j => .genericError (m j)) user message timestamp
        st).result.status = "failed"
    ∧ (send_message_with_retry cfg (fun j => .genericError (m j)) user message timestamp
        st).stats = { st with failed := st.failed + 1 } := by
  obtain ⟨r, hr⟩ : ∃ r, cfg.max_retries = r + 1 := ⟨cfg.max_retries - 1, by omega⟩
  rw [send_message_with_retry, hr, sendAux_generic]
  refine ⟨rfl, by simp, rfl, rfl⟩

/-- C2 witness at `max_retries = 3`: three attempts, two 5-second sleeps,
status `failed`. -/
theorem generic_error_retries_exactly_max_witness :
    (send_message_with_retry { max_retries := 3 } (fun j => .genericError (toString j))
        "carol" "hi" "t0" ⟨0, 0, 0, 0⟩).sendCalls = 3
    ∧ (send_message_with_retry { max_retries := 3 } (fun j => .genericError (toString j))
        "carol" "hi" "t0" ⟨0, 0, 0, 0⟩).sleeps = List.replicate 2 5
    ∧ (send_message_with_retry { max_retries := 3 } (fun j => .genericError (toString j))
        "carol" "hi" "t0" ⟨0, 0, 0, 0⟩).result.status = "failed"
    ∧ (send_message_with_retry { max_retries := 3 } (fun j => .genericError (toString j))
        "carol" "hi" "t0" ⟨0, 0, 0, 0⟩).stats
        = { (⟨0, 0, 0, 0⟩ : Stats) with failed := 0 + 1 } :=
  generic_error_retries_exactly_max { max_retries := 3 } (fun j => toString j) "carol"
    "hi" "t0" ⟨0, 0, 0, 0⟩ (by decide)

/-- C6.  When the first delivery attempt raises a privacy/permission-refusal
error (privacy restricted, not a mutual contact, invalid peer, or write
forbidden), `send_message_with_retry` returns status `skipped` after exactly
one delivery attempt: one send call, no sleeps, no further attempts, and the
skipped counter incremented once. -/
theorem privacy_error_skips_after_one_attempt (cfg : Config) (env : Nat → AttemptEvent)
    (user message timestamp : String) (st : Stats)
    (h1 : env 0 = .privacyError ∨ env 0 = .peerError) (h2 : 1 ≤ cfg.max_retries) :
    (send_message_with_retry cfg env user message timestamp st).result.status = "skipped"
    ∧ (send_message_with_retry cfg env user message timestamp st).sendCalls = 1
    ∧ (send_message_with_retry cfg env user message timestamp st).sleeps = []
    ∧ (send_message_with_retry cfg env user message timestamp st).stats
        = { st with skipped := st.skipped + 1 } := by
  obtain ⟨r, hr⟩ : ∃ r, cfg.max_retries = r + 1 := ⟨cfg.max_retries - 1, by omega⟩
  rw [send_message_with_retry, hr]
  rcases h1 with h | h <;> simp [sendAux, h]

/-- C6 witness: a privacy-restricted recipient is skipped after one attempt. -/
theorem privacy_error_skips_after_one_attempt_witness :
    (send_message_with_retry { max_retries := 3 } (fun _ => .privacyError) "dave" "hi" "t0"
        ⟨0, 0, 0, 0⟩).result.status = "skipped"
    ∧ (send_message_with_retry { max_retries := 3 } (fun _ => .privacyError) "dave" "hi" "t0"
        ⟨0, 0, 0, 0⟩).sendCalls = 1
    ∧ (send_message_with_retry { max_retries := 3 } (fun _ => .privacyError) "dave" "hi" "t0"
        ⟨0, 0, 0, 0⟩).sleeps = []
    ∧ (send_message_with_retry { max_retries := 3 } (fun _ => .privacyError) "dave" "hi" "t0"
        ⟨0, 0, 0, 0⟩).stats = { (⟨0, 0, 0, 0⟩ : Stats) with skipped := 0 + 1 } :=
  privacy_error_skips_after_one_attempt { max_retries := 3 } (fun _ => .privacyError)
    "dave" "hi" "t0" ⟨0, 0, 0, 0⟩ (Or.inl rfl) (by decide)

/-- C8 (amended).  `load_progress` is total (the except handler swallows
every failure): with both files absent it returns empty collections; a read
or parse failure of the sent file returns both collections empty; but a
failure of the failed/skipped file alone returns the already-parsed sent
list together with an empty failed list, not two empty collections. -/
theorem load_progress_total_behavior (s : Store) :
    (s.sentFile = .absent → s.failedFile = .absent → load_progress s = ([], []))
    ∧ (s.sentFile = .bad → load_progress s = ([], []))
    ∧ (∀ ls, s.sentFile = .good ls → s.failedFile = .bad → load_progress s = (ls, []))
    ∧ (∀ ls, s.sentFile = .good ls → s.failedFile = .absent → load_progress s = (ls, [])) := by
  obtain ⟨sf, ff⟩ := s
  refine ⟨?_, ?_, ?_, ?_⟩
  · rintro rfl rfl; rfl
  · rintro rfl; cases ff <;> rfl
  · rintro ls rfl rfl; rfl
  · rintro ls rfl rfl; rfl

/-- C8 counterexample.  With a well-formed sent file holding `["a"]` and an
unparseable failed file, `load_progress` does not return empty collections:
it returns the loaded sent list. -/
theorem load_progress_partial_on_bad_failed_file :
    load_progress ⟨.good ["a"], .bad⟩ ≠ (([] : List String), ([] : List SendResult))
    ∧ load_progress ⟨.good ["a"], .bad⟩ = (["a"], []) := by
  exact ⟨by decide, rfl⟩

/-- C8 witness: three concrete file states of the amended claim. -/
theorem load_progress_total_behavior_witness :
    load_progress ⟨.absent, .absent⟩ = ([], [])
    ∧ load_progress ⟨.bad, .good [⟨"a", "failed", none, "t"⟩]⟩ = ([], [])
    ∧ load_progress ⟨.good ["a"], .bad⟩ = (["a"], []) :=
  ⟨(load_progress_total_behavior ⟨.absent, .absent⟩).1 rfl rfl,
   (load_progress_total_behavior ⟨.bad, .good [⟨"a", "failed", none, "t"⟩]⟩).2.1 rfl,
   (load_progress_total_behavior ⟨.good ["a"], .bad⟩).2.2.1 ["a"] rfl rfl⟩

/-- C9.  Saving a sent list and a failed/skipped record list and then
loading reproduces both collections exactly, order included. -/
theorem save_load_roundtrip (s : Store) (sent_users : List String)
    (failed_users : List SendResult) :
    load_progress (save_progress s sent_users failed_users) = (sent_users, failed_users) :=
  rfl

/-- Membership in the filtered working list: an identifier survives the
resume filter exactly when it is in the input and in neither loaded
collection. -/
theorem mem_remainingUsers (users sent0 : List String) (failed0 : List SendResult)
    (u : String) :
    u ∈ remainingUsers users sent0 failed0 ↔
      u ∈ users ∧ u ∉ sent0 ∧ ∀ r ∈ failed0, r.user ≠ u := by
  simp [remainingUsers, List.mem_filter]

/-- Every `call` event of the driver loop names an identifier of the working
list the loop was given. -/
theorem bulkLoop_calls (cfg : Config) (benv : Nat → RecipientBehavior)
    (message timestamp : String) (n : Nat) :
    ∀ us i st u, DriverEv.call u ∈ (bulkLoop cfg benv message timestamp n us i st).2 →
      u ∈ us := by
  intro us
  induction us with
  | nil => intro i st u h; simp [bulkLoop] at h
  | cons v rest ih =>
    intro i st u h
    cases hb : benv i with
    | interrupt =>
      simp only [bulkLoop, hb] at h
      simp at h
      subst h
      exact List.mem_cons_self _ _
    | unexpectedError =>
      simp only [bulkLoop, hb] at h
      rcases List.mem_cons.mp h with h | h
      · injection h with h
        subst h
        exact List.mem_cons_self _ _
      · exact List.mem_cons_of_mem v (ih (i + 1) st u h)
    | outcome env =>
      simp only [bulkLoop, hb] at h
      rcases List.mem_cons.mp h with h | h
      · injection h with h
        subst h
        exact List.mem_cons_self _ _
      · rcases List.mem_append.mp h with h | h
        · revert h
          split <;> intro h <;> simp at h
        · rcases List.mem_append.mp h with h | h
          · revert h
            split <;> intro h <;> simp at h
          · exact List.mem_cons_of_mem v (ih (i + 1) _ u h)

/-- C4.  When `send_bulk_messages` is invoked with `resume = true`, an
identifier already in the loaded sent list or appearing as the identifier of
a loaded failed/skipped record is removed from the working list before the
loop starts, and `send_message_with_retry` is never invoked for it (no
`call` event for it appears in the run's trace). -/
theorem resume_never_recalls_processed (cfg : Config) (benv : Nat → RecipientBehavior)
    (users : List String) (message timestamp : String) (store : Store) (st : Stats)
    (u : String)
    (h : u ∈ (load_progress store).1 ∨ u ∈ (load_progress store).2.map (fun r => r.user)) :
    u ∉ remainingUsers users (load_progress store).1 (load_progress store).2
    ∧ DriverEv.call u ∉
        (send_bulk_messages cfg benv users message timestamp true store st).2 := by
  have hnot : ¬ (u ∉ (load_progress store).1 ∧
      ∀ r ∈ (load_progress store).2, r.user ≠ u) := by
    rcases h with h | h
    · exact fun hc => hc.1 h
    · obtain ⟨r, hr, hru⟩ := List.mem_map.mp h
      exact fun hc => hc.2 r hr hru
  have hrem : u ∉ remainingUsers users (load_progress store).1 (load_progress store).2 := by
    intro hc
    exact hnot ((mem_remainingUsers users _ _ u).mp hc).2
  refine ⟨hrem, ?_⟩
  intro hc
  rw [send_bulk_messages] at hc
  by_cases he : remainingUsers users (load_progress store).1 (load_progress store).2 = []
  · simp [he] at hc
  · simp only [if_true, he, if_neg he] at hc
    rcases List.mem_append.mp hc with hc | hc
    · exact hrem (bulkLoop_calls cfg benv message timestamp _ _ 1 _ u hc)
    · simp at hc

/-- C4 witness: with loaded progress recording `"a"` as sent, a resumed run
over `["a", "b"]` filters `"a"` out and never calls delivery for it. -/
theorem resume_never_recalls_processed_witness :
    "a" ∉ remainingUsers ["a", "b"] (load_progress ⟨.good ["a"], .good []⟩).1
        (load_progress ⟨.good ["a"], .good []⟩).2
    ∧ DriverEv.call "a" ∉
        (send_bulk_messages {} (fun _ => RecipientBehavior.outcome (fun _ => .sendOk))
          ["a", "b"] "m" "t" true ⟨.good ["a"], .good []⟩ ⟨0, 0, 0, 0⟩).2 :=
  resume_never_recalls_processed {} (fun _ => RecipientBehavior.outcome (fun _ => .sendOk))
    ["a", "b"] "m" "t" ⟨.good ["a"], .good []⟩ ⟨0, 0, 0, 0⟩ "a" (Or.inl (by decide))

end TelegramBulk

namespace TelegramBulk

/-- Routing a fresh recipient's result preserves mutual exclusion of the two
collections. -/
theorem routed_exclusive (sent : List String) (failed : List SendResult) (u : String)
    (res : SendResult) (hex : Exclusive sent failed) (hru : res.user = u)
    (hus : u ∉ sent) (huf : ∀ r ∈ failed, r.user ≠ u) :
    Exclusive (routedSent sent u res) (routedFailed failed res) := by
  intro v hv r hr
  unfold routedSent at hv
  unfold routedFailed at hr
  by_cases hs : res.status = "sent"
  · rw [if_pos hs] at hv
    rw [if_pos hs] at hr
    rcases List.mem_append.mp hv with hv | hv
    · exact hex v hv r hr
    · have : v = u := by simpa using hv
      subst this
      exact huf r hr
  · rw [if_neg hs] at hv
    rw [if_neg hs] at hr
    split at hr
    · rcases List.mem_append.mp hr with hr | hr
      · exact hex v hv r hr
      · have : r = res := by simpa using hr
        subst this
        rw [hru]
        intro heq
        exact hus (heq ▸ hv)
    · exact hex v hv r hr

/-- Routing the result of a different recipient leaves an identifier that was
absent from both collections absent from both. -/
theorem routed_fresh (sent : List String) (failed : List SendResult) (u v : String)
    (res : SendResult) (hvu : v ≠ u) (hvs : v ∉ sent)
    (hvf : ∀ r ∈ failed, r.user ≠ v) (hru : res.user = u) :
    v ∉ routedSent sent u res ∧ ∀ r ∈ routedFailed failed res, r.user ≠ v := by
  constructor
  · unfold routedSent
    split
    · intro hc
      rcases List.mem_append.mp hc with hc | hc
      · exact hvs hc
      · exact hvu (by simpa using hc)
    · exact hvs
  · intro r hr
    unfold routedFailed at hr
    split at hr
    · exact hvf r hr
    · split at hr
      · rcases List.mem_append.mp hr with hr | hr
        · exact hvf r hr
        · have : r = res := by simpa using hr
          subst this
          rw [hru]
          exact fun heq => hvu heq.symm
      · exact hvf r hr

end TelegramBulk

namespace TelegramBulk

/-- Loop invariant for C3: if the two collections are mutually exclusive and
the remaining working list is duplicate-free and disjoint from both, then the
final collections are mutually exclusive and so is every checkpoint snapshot
written during the loop. -/
theorem bulkLoop_exclusive (cfg : Config) (benv : Nat → RecipientBehavior)
    (message timestamp : String) (n : Nat) :
    ∀ us i st, Exclusive st.sent st.failed → us.Nodup →
      (∀ u ∈ us, u ∉ st.sent ∧ ∀ r ∈ st.failed, r.user ≠ u) →
      Exclusive (bulkLoop cfg benv message timestamp n us i st).1.sent
          (bulkLoop cfg benv message timestamp n us i st).1.failed
      ∧ ∀ s f sst,
          DriverEv.save s f sst ∈ (bulkLoop cfg benv message timestamp n us i st).2 →
          Exclusive s f := by
  intro us
  induction us with
  | nil =>
    intro i st hex _ _
    exact ⟨hex, by simp [bulkLoop]⟩
  | cons v rest ih =>
    intro i st hex hnd hfr
    have hndr : rest.Nodup := (List.nodup_cons.mp hnd).2
    have hvrest : v ∉ rest := (List.nodup_cons.mp hnd).1
    have hfrv := hfr v (List.mem_cons_self _ _)
    have hfrr : ∀ u ∈ rest, u ∉ st.sent ∧ ∀ r ∈ st.failed, r.user ≠ u :=
      fun u hu => hfr u (List.mem_cons_of_mem _ hu)
    cases hb : benv i with
    | interrupt =>
      simp only [bulkLoop, hb]
      refine ⟨hex, ?_⟩
      intro s f sst hmem
      simp at hmem
      obtain ⟨hs, hf, _⟩ := hmem
      subst hs
      subst hf
      exact hex
    | unexpectedError =>
      simp only [bulkLoop, hb]
      have := ih (i + 1) st hex hndr hfrr
      refine ⟨this.1, ?_⟩
      intro s f sst hmem
      rcases List.mem_cons.mp hmem with hmem | hmem
      · exact absurd hmem (by simp)
      · exact this.2 s f sst hmem
    | outcome env =>
      have huser : (send_message_with_retry cfg env v message timestamp st.stats).result.user
          = v := send_user cfg env v message timestamp st.stats
      have hex1 : Exclusive
          (routedSent st.sent v (send_message_with_retry cfg env v message timestamp
            st.stats).result)
          (routedFailed st.failed (send_message_with_retry cfg env v message timestamp
            st.stats).result) :=
        routed_exclusive st.sent st.failed v _ hex huser hfrv.1 hfrv.2
      have hfr1 : ∀ u ∈ rest,
          u ∉ routedSent st.sent v (send_message_with_retry cfg env v message timestamp
            st.stats).result
          ∧ ∀ r ∈ routedFailed st.failed (send_message_with_retry cfg env v message
              timestamp st.stats).result, r.user ≠ u := by
        intro u hu
        have hne : u ≠ v := fun h => hvrest (h ▸ hu)
        exact routed_fresh st.sent st.failed v u _ hne (hfrr u hu).1 (hfrr u hu).2 huser
      simp only [bulkLoop, hb]
      have hrec := ih (i + 1)
        ⟨routedSent st.sent v (send_message_with_retry cfg env v message timestamp
            st.stats).result,
         routedFailed st.failed (send_message_with_retry cfg env v message timestamp
            st.stats).result,
         (send_message_with_retry cfg env v message timestamp st.stats).stats,
         if i % 10 = 0 then
           save_progress st.store
             (routedSent st.sent v (send_message_with_retry cfg env v message timestamp
                st.stats).result)
             (routedFailed st.failed (send_message_with_retry cfg env v message timestamp
                st.stats).result)
         else st.store⟩
        hex1 hndr hfr1
      refine ⟨hrec.1, ?_⟩
      intro s f sst hmem
      rcases List.mem_cons.mp hmem with hmem | hmem
      · exact absurd hmem (by simp)
      · rcases List.mem_append.mp hmem with hmem | hmem
        · revert hmem
          split <;> intro hmem
          · simp at hmem
            obtain ⟨hs, hf, _⟩ := hmem
            subst hs
            subst hf
            exact hex1
          · simp at hmem
        · rcases List.mem_append.mp hmem with hmem | hmem
          · revert hmem
            split <;> intro hmem <;> simp at hmem
          · exact hrec.2 s f sst hmem

end TelegramBulk

namespace TelegramBulk

/-- C3 (amended).  For an input list without duplicate identifiers (and,
when resuming, a loaded progress that itself satisfies mutual exclusion),
no identifier appears both in the sent list and as the identifier of a
failed/skipped record: at the end of the run and at every checkpoint
written during it. -/
theorem bulk_exclusion_of_nodup (cfg : Config) (benv : Nat → RecipientBehavior)
    (users : List String) (message timestamp : String) (resume : Bool) (store : Store)
    (st : Stats) (hnd : users.Nodup)
    (hload : resume = true → Exclusive (load_progress store).1 (load_progress store).2) :
    Exclusive
        (send_bulk_messages cfg benv users message timestamp resume store st).1.sent
        (send_bulk_messages cfg benv users message timestamp resume store st).1.failed
    ∧ ∀ s f sst,
        DriverEv.save s f sst
          ∈ (send_bulk_messages cfg benv users message timestamp resume store st).2 →
        Exclusive s f := by
  cases resume with
  | false =>
    simp only [send_bulk_messages, Bool.false_eq_true, if_false]
    by_cases he : users = []
    · subst he
      refine ⟨?_, ?_⟩
      · simp [Exclusive]
      · intro s f sst hmem
        simp at hmem
    · have hstep := bulkLoop_exclusive cfg benv message timestamp users.length users 1
        ⟨[], [], { st with total := users.length }, store⟩
        (by simp [Exclusive]) hnd (by simp)
      simp only [if_neg he]
      refine ⟨hstep.1, ?_⟩
      intro s f sst hmem
      rcases List.mem_append.mp hmem with hmem | hmem
      · exact hstep.2 s f sst hmem
      · simp at hmem
        obtain ⟨hs, hf, _⟩ := hmem
        subst hs
        subst hf
        exact hstep.1
  | true =>
    have hex0 := hload rfl
    have hnd1 : (remainingUsers users (load_progress store).1 (load_progress store).2).Nodup :=
      List.Nodup.filter _ hnd
    have hfr0 : ∀ u ∈ remainingUsers users (load_progress store).1 (load_progress store).2,
        u ∉ (load_progress store).1 ∧ ∀ r ∈ (load_progress store).2, r.user ≠ u :=
      fun u hu => ((mem_remainingUsers users _ _ u).mp hu).2
    simp only [send_bulk_messages, if_true]
    by_cases he : remainingUsers users (load_progress store).1 (load_progress store).2 = []
    · simp only [if_pos he]
      refine ⟨hex0, ?_⟩
      intro s f sst hmem
      simp at hmem
    · have hstep := bulkLoop_exclusive cfg benv message timestamp
        (remainingUsers users (load_progress store).1 (load_progress store).2).length
        (remainingUsers users (load_progress store).1 (load_progress store).2) 1
        ⟨(load_progress store).1, (load_progress store).2,
         { st with total :=
            (remainingUsers users (load_progress store).1 (load_progress store).2).length },
         store⟩
        hex0 hnd1 hfr0
      simp only [if_neg he]
      refine ⟨hstep.1, ?_⟩
      intro s f sst hmem
      rcases List.mem_append.mp hmem with hmem | hmem
      · exact hstep.2 s f sst hmem
      · simp at hmem
        obtain ⟨hs, hf, _⟩ := hmem
        subst hs
        subst hf
        exact hstep.1

end TelegramBulk

namespace TelegramBulk

/-- C3 counterexample.  With the duplicate input list `["a", "a"]`, the
first occurrence delivered and the second failing, the identifier `"a"`
ends up in the sent list and as the identifier of a failed record at the
final save: the claim fails for arbitrary input lists. -/
theorem duplicate_input_breaks_exclusion :
    ¬ Exclusive
        (send_bulk_messages { max_retries := 1 }
          (fun i => if i = 1 then RecipientBehavior.outcome (fun _ => .sendOk)
            else RecipientBehavior.outcome (fun _ => .genericError "boom"))
          ["a", "a"] "m" "t" false ⟨.absent, .absent⟩ ⟨0, 0, 0, 0⟩).1.sent
        (send_bulk_messages { max_retries := 1 }
          (fun i => if i = 1 then RecipientBehavior.outcome (fun _ => .sendOk)
            else RecipientBehavior.outcome (fun _ => .genericError "boom"))
          ["a", "a"] "m" "t" false ⟨.absent, .absent⟩ ⟨0, 0, 0, 0⟩).1.failed := by
  decide

/-- C3 witness: a duplicate-free two-recipient run, one delivered and one
failed, keeps the collections mutually exclusive at the end and at every
checkpoint. -/
theorem bulk_exclusion_of_nodup_witness :
    Exclusive
        (send_bulk_messages { max_retries := 1 }
          (fun i => if i = 1 then RecipientBehavior.outcome (fun _ => .sendOk)
            else RecipientBehavior.outcome (fun _ => .genericError "boom"))
          ["a", "b"] "m" "t" false ⟨.absent, .absent⟩ ⟨0, 0, 0, 0⟩).1.sent
        (send_bulk_messages { max_retries := 1 }
          (fun i => if i = 1 then RecipientBehavior.outcome (fun _ => .sendOk)
            else RecipientBehavior.outcome (fun _ => .genericError "boom"))
          ["a", "b"] "m" "t" false ⟨.absent, .absent⟩ ⟨0, 0, 0, 0⟩).1.failed
    ∧ ∀ s f sst,
        DriverEv.save s f sst
          ∈ (send_bulk_messages { max_retries := 1 }
              (fun i => if i = 1 then RecipientBehavior.outcome (fun _ => .sendOk)
                else RecipientBehavior.outcome (fun _ => .genericError "boom"))
              ["a", "b"] "m" "t" false ⟨.absent, .absent⟩ ⟨0, 0, 0, 0⟩).2 →
        Exclusive s f :=
  bulk_exclusion_of_nodup { max_retries := 1 }
    (fun i => if i = 1 then RecipientBehavior.outcome (fun _ => .sendOk)
      else RecipientBehavior.outcome (fun _ => .genericError "boom"))
    ["a", "b"] "m" "t" false ⟨.absent, .absent⟩ ⟨0, 0, 0, 0⟩
    (by decide) (fun h => absurd h (by decide))

end TelegramBulk

namespace TelegramBulk

/-- Appending one record changes a status count by one exactly when the
record carries that status. -/
theorem countStatus_append_single (l : List SendResult) (r : SendResult) (s : String) :
    countStatus (l ++ [r]) s = countStatus l s + (if r.status == s then 1 else 0) := by
  unfold countStatus
  rw [List.filter_append, List.length_append]
  congr 1
  split <;> rename_i h <;> simp [List.filter, h]

/-- One delivery step preserves the stats-reconstructability bounds: the
sent counter tracks the sent list exactly, and the skipped/failed counters
stay below the respective record counts (they do not increase when the skip
came from an unresolvable user or the failure from flood-wait exhaustion). -/
theorem routed_statsinv (cfg : Config) (env : Nat → AttemptEvent)
    (u message timestamp : String) (sent : List String) (failed : List SendResult)
    (sst : Stats) (hinv : StatsInvP sent failed sst) :
    StatsInvP
      (routedSent sent u (send_message_with_retry cfg env u message timestamp sst).result)
      (routedFailed failed (send_message_with_retry cfg env u message timestamp sst).result)
      (send_message_with_retry cfg env u message timestamp sst).stats := by
  obtain ⟨h1, h2, h3⟩ := hinv
  rcases send_status_stats cfg env u message timestamp sst with ⟨hs, hst⟩ | ⟨hs, hst⟩
    | ⟨hs, hst⟩
  · unfold routedSent routedFailed StatsInvP
    rw [if_pos hs, if_pos hs, hst]
    exact ⟨by simp [h1], h2, h3⟩
  · have hns : ¬ (send_message_with_retry cfg env u message timestamp
        sst).result.status = "sent" := by rw [hs]; decide
    unfold routedSent routedFailed StatsInvP
    rw [if_neg hns, if_neg hns, if_pos (Or.inr hs),
      countStatus_append_single, countStatus_append_single, hs]
    have hsk : (("skipped" : String) == "skipped") = true := by decide
    have hfl : (("skipped" : String) == "failed") = false := by decide
    rw [hsk, hfl]
    rcases hst with h | h <;> rw [h] <;> simp <;> omega
  · have hns : ¬ (send_message_with_retry cfg env u message timestamp
        sst).result.status = "sent" := by rw [hs]; decide
    unfold routedSent routedFailed StatsInvP
    rw [if_neg hns, if_neg hns, if_pos (Or.inl hs),
      countStatus_append_single, countStatus_append_single, hs]
    have hsk : (("failed" : String) == "skipped") = false := by decide
    have hfl : (("failed" : String) == "failed") = true := by decide
    rw [hsk, hfl]
    rcases hst with h | h <;> rw [h] <;> simp <;> omega

end TelegramBulk

namespace TelegramBulk

/-- Loop invariant for C5: if the stats are reconstructable (sent exactly,
skipped/failed as lower bounds) from the collections on entry, they stay so
at every checkpoint written by the loop and at its end. -/
theorem bulkLoop_stats (cfg : Config) (benv : Nat → RecipientBehavior)
    (message timestamp : String) (n : Nat) :
    ∀ us i st, StatsInvP st.sent st.failed st.stats →
      StatsInvP (bulkLoop cfg benv message timestamp n us i st).1.sent
          (bulkLoop cfg benv message timestamp n us i st).1.failed
          (bulkLoop cfg benv message timestamp n us i st).1.stats
      ∧ ∀ s f sst,
          DriverEv.save s f sst ∈ (bulkLoop cfg benv message timestamp n us i st).2 →
          StatsInvP s f sst := by
  intro us
  induction us with
  | nil =>
    intro i st hinv
    exact ⟨hinv, by simp [bulkLoop]⟩
  | cons v rest ih =>
    intro i st hinv
    cases hb : benv i with
    | interrupt =>
      simp only [bulkLoop, hb]
      refine ⟨hinv, ?_⟩
      intro s f sst hmem
      simp at hmem
      obtain ⟨hs, hf, hsst⟩ := hmem
      subst hs
      subst hf
      subst hsst
      exact hinv
    | unexpectedError =>
      simp only [bulkLoop, hb]
      have := ih (i + 1) st hinv
      refine ⟨this.1, ?_⟩
      intro s f sst hmem
      rcases List.mem_cons.mp hmem with hmem | hmem
      · exact absurd hmem (by simp)
      · exact this.2 s f sst hmem
    | outcome env =>
      have hinv1 := routed_statsinv cfg env v message timestamp st.sent st.failed
        st.stats hinv
      simp only [bulkLoop, hb]
      have hrec := ih (i + 1)
        ⟨routedSent st.sent v (send_message_with_retry cfg env v message timestamp
            st.stats).result,
         routedFailed st.failed (send_message_with_retry cfg env v message timestamp
            st.stats).result,
         (send_message_with_retry cfg env v message timestamp st.stats).stats,
         if i % 10 = 0 then
           save_progress st.store
             (routedSent st.sent v (send_message_with_retry cfg env v message timestamp
                st.stats).result)
             (routedFailed st.failed (send_message_with_retry cfg env v message timestamp
                st.stats).result)
         else st.store⟩
        hinv1
      refine ⟨hrec.1, ?_⟩
      intro s f sst hmem
      rcases List.mem_cons.mp hmem with hmem | hmem
      · exact absurd hmem (by simp)
      · rcases List.mem_append.mp hmem with hmem | hmem
        · revert hmem
          split <;> intro hmem
          · simp at hmem
            obtain ⟨hs, hf, hsst⟩ := hmem
            subst hs
            subst hf
            subst hsst
            exact hinv1
          · simp at hmem
        · rcases List.mem_append.mp hmem with hmem | hmem
          · revert hmem
            split <;> intro hmem <;> simp at hmem
          · exact hrec.2 s f sst hmem

/-- C5 (amended).  In a fresh run (`resume = false`, zeroed counters), the
stats are reconstructable from Campaign Progress only as follows, at the end
of the run and at every checkpoint: `stats['sent']` equals the length of the
sent list exactly, while `stats['skipped']` and `stats['failed']` are lower
bounds of the respective record counts (undercounting whenever a recipient
was skipped because it could not be resolved, or failed because rate-limit
errors exhausted the attempt loop). -/
theorem stats_reconstruction_bounds (cfg : Config) (benv : Nat → RecipientBehavior)
    (users : List String) (message timestamp : String) (store : Store) :
    StatsInvP
        (send_bulk_messages cfg benv users message timestamp false store
          ⟨0, 0, 0, 0⟩).1.sent
        (send_bulk_messages cfg benv users message timestamp false store
          ⟨0, 0, 0, 0⟩).1.failed
        (send_bulk_messages cfg benv users message timestamp false store
          ⟨0, 0, 0, 0⟩).1.stats
    ∧ ∀ s f sst,
        DriverEv.save s f sst
          ∈ (send_bulk_messages cfg benv users message timestamp false store
              ⟨0, 0, 0, 0⟩).2 →
        StatsInvP s f sst := by
  simp only [send_bulk_messages, Bool.false_eq_true, if_false]
  by_cases he : users = []
  · subst he
    refine ⟨?_, ?_⟩
    · exact ⟨rfl, Nat.le_refl _, Nat.le_refl _⟩
    · intro s f sst hmem
      simp at hmem
  · have hstep := bulkLoop_stats cfg benv message timestamp users.length users 1
      ⟨[], [], ⟨0, 0, 0, users.length⟩, store⟩
      ⟨rfl, Nat.le_refl _, Nat.le_refl _⟩
    simp only [if_neg he]
    refine ⟨hstep.1, ?_⟩
    intro s f sst hmem
    rcases List.mem_append.mp hmem with hmem | hmem
    · exact hstep.2 s f sst hmem
    · simp at hmem
      obtain ⟨hs, hf, hsst⟩ := hmem
      subst hs
      subst hf
      subst hsst
      exact hstep.1

end TelegramBulk

namespace TelegramBulk

/-- C5 counterexample.  A single recipient skipped because it never
resolves: the final progress holds one record with status `skipped`, yet
`stats['skipped']` is 0 (the unresolved-user branch returns without
incrementing it), so the counters are not reconstructable as claimed. -/
theorem unresolved_skip_not_counted :
    (send_bulk_messages { max_retries := 3 }
        (fun _ => RecipientBehavior.outcome (fun _ => .resolveFail)) ["a"] "m" "t" false
        ⟨.absent, .absent⟩ ⟨0, 0, 0, 0⟩).1.stats.skipped = 0
    ∧ countStatus
        (send_bulk_messages { max_retries := 3 }
          (fun _ => RecipientBehavior.outcome (fun _ => .resolveFail)) ["a"] "m" "t" false
          ⟨.absent, .absent⟩ ⟨0, 0, 0, 0⟩).1.failed "skipped" = 1 :=
  ⟨rfl, rfl⟩

/-- C5 witness: a fresh one-recipient delivered run satisfies the bounds at
the end and at its final save event. -/
theorem stats_reconstruction_bounds_witness :
    StatsInvP
        (send_bulk_messages {} (fun _ => RecipientBehavior.outcome (fun _ => .sendOk))
          ["a"] "m" "t" false ⟨.absent, .absent⟩ ⟨0, 0, 0, 0⟩).1.sent
        (send_bulk_messages {} (fun _ => RecipientBehavior.outcome (fun _ => .sendOk))
          ["a"] "m" "t" false ⟨.absent, .absent⟩ ⟨0, 0, 0, 0⟩).1.failed
        (send_bulk_messages {} (fun _ => RecipientBehavior.outcome (fun _ => .sendOk))
          ["a"] "m" "t" false ⟨.absent, .absent⟩ ⟨0, 0, 0, 0⟩).1.stats
    ∧ StatsInvP ["a"] [] ⟨1, 0, 0, 1⟩ :=
  ⟨(stats_reconstruction_bounds {} (fun _ => RecipientBehavior.outcome (fun _ => .sendOk))
      ["a"] "m" "t" ⟨.absent, .absent⟩).1,
   (stats_reconstruction_bounds {} (fun _ => RecipientBehavior.outcome (fun _ => .sendOk))
      ["a"] "m" "t" ⟨.absent, .absent⟩).2 ["a"] [] ⟨1, 0, 0, 1⟩ (by decide)⟩

end TelegramBulk

namespace TelegramBulk

/-- C10.  When the per-recipient processing of iteration `i` raises an
unexpected exception that reaches the `except Exception` handler, the
driver continues with iteration `i + 1` in an unchanged state: no outcome
is recorded for that recipient, and — whatever `i` is, in particular also
when `i` is a multiple of 10 — the iteration contributes only its `call`
event to the trace: no checkpoint and no inter-message delay for that
iteration. -/
theorem unexpected_error_skips_everything (cfg : Config)
    (benv : Nat → RecipientBehavior) (message timestamp : String) (n i : Nat)
    (u : String) (rest : List String) (st : DriverState)
    (h : benv i = .unexpectedError) :
    (bulkLoop cfg benv message timestamp n (u :: rest) i st).1
      = (bulkLoop cfg benv message timestamp n rest (i + 1) st).1
    ∧ (bulkLoop cfg benv message timestamp n (u :: rest) i st).2
      = .call u :: (bulkLoop cfg benv message timestamp n rest (i + 1) st).2 := by
  simp [bulkLoop, h]

/-- C10 witness: at iteration 10 (a checkpoint iteration) the failing
recipient leaves the state untouched and adds only a call event. -/
theorem unexpected_error_skips_everything_witness :
    (bulkLoop {} (fun j => if j = 10 then RecipientBehavior.unexpectedError
        else RecipientBehavior.outcome (fun _ => .sendOk)) "m" "t" 11 ["a", "b"] 10
        ⟨[], [], ⟨0, 0, 0, 0⟩, ⟨.absent, .absent⟩⟩).1
      = (bulkLoop {} (fun j => if j = 10 then RecipientBehavior.unexpectedError
          else RecipientBehavior.outcome (fun _ => .sendOk)) "m" "t" 11 ["b"] 11
          ⟨[], [], ⟨0, 0, 0, 0⟩, ⟨.absent, .absent⟩⟩).1
    ∧ (bulkLoop {} (fun j => if j = 10 then RecipientBehavior.unexpectedError
        else RecipientBehavior.outcome (fun _ => .sendOk)) "m" "t" 11 ["a", "b"] 10
        ⟨[], [], ⟨0, 0, 0, 0⟩, ⟨.absent, .absent⟩⟩).2
      = .call "a" :: (bulkLoop {} (fun j => if j = 10 then RecipientBehavior.unexpectedError
          else RecipientBehavior.outcome (fun _ => .sendOk)) "m" "t" 11 ["b"] 11
          ⟨[], [], ⟨0, 0, 0, 0⟩, ⟨.absent, .absent⟩⟩).2 :=
  unexpected_error_skips_everything {}
    (fun j => if j = 10 then RecipientBehavior.unexpectedError
      else RecipientBehavior.outcome (fun _ => .sendOk)) "m" "t" 11 10 "a" ["b"]
    ⟨[], [], ⟨0, 0, 0, 0⟩, ⟨.absent, .absent⟩⟩ rfl

end TelegramBulk

namespace TelegramBulk

/-- `savesOf` ignores call events. -/
theorem savesOf_call (u : String) (tr : List DriverEv) :
    savesOf (.call u :: tr) = savesOf tr := rfl

/-- `savesOf` ignores sleep events. -/
theorem savesOf_sleep (s : Nat) (tr : List DriverEv) :
    savesOf (.sleep s :: tr) = savesOf tr := rfl

/-- `savesOf` collects save events. -/
theorem savesOf_save (s : List String) (f : List SendResult) (sst : Stats)
    (tr : List DriverEv) :
    savesOf (.save s f sst :: tr) = (s, f) :: savesOf tr := rfl

/-- `savesOf` distributes over trace concatenation. -/
theorem savesOf_append (l1 l2 : List DriverEv) :
    savesOf (l1 ++ l2) = savesOf l1 ++ savesOf l2 := by
  induction l1 with
  | nil => rfl
  | cons e tl ih =>
    cases e with
    | call u => simpa [savesOf] using ih
    | save s f sst => simpa [savesOf] using ih
    | sleep s => simpa [savesOf] using ih

/-- A delivery that succeeds on the first attempt: result `sent`, one send
call, no sleeps, sent counter incremented. -/
theorem send_allOk (cfg : Config) (u message timestamp : String) (st : Stats) (r : Nat)
    (h : cfg.max_retries = r + 1) :
    send_message_with_retry cfg (fun _ => .sendOk) u message timestamp st
      = { result := { user := u, status := "sent", error := none, timestamp := timestamp },
          stats := { st with sent := st.sent + 1 }, sleeps := [], sendCalls := 1 } := by
  rw [send_message_with_retry, h]
  rfl

/-- The driver loop when every delivery succeeds on the first attempt: the
sent list accumulates the working list in order, the failed list is
untouched, and a checkpoint is written exactly at the positions whose
1-based index is a multiple of 10, holding the sent prefix up to that
position. -/
theorem bulkLoop_allOk (cfg : Config) (message timestamp : String) (n r : Nat)
    (h : cfg.max_retries = r + 1) :
    ∀ us i st,
      (bulkLoop cfg (fun _ => RecipientBehavior.outcome (fun _ => .sendOk)) message
          timestamp n us i st).1.sent = st.sent ++ us
      ∧ (bulkLoop cfg (fun _ => RecipientBehavior.outcome (fun _ => .sendOk)) message
          timestamp n us i st).1.failed = st.failed
      ∧ savesOf (bulkLoop cfg (fun _ => RecipientBehavior.outcome (fun _ => .sendOk))
          message timestamp n us i st).2
        = (List.range us.length).filterMap (fun k =>
            if (i + k) % 10 = 0 then some (st.sent ++ us.take (k + 1), st.failed)
            else none) := by
  intro us
  induction us with
  | nil =>
    intro i st
    exact ⟨by simp [bulkLoop], by simp [bulkLoop], by simp [bulkLoop, savesOf]⟩
  | cons v rest ih =>
    intro i st
    have hstep : bulkLoop cfg (fun _ => RecipientBehavior.outcome (fun _ => .sendOk))
        message timestamp n (v :: rest) i st
        = ((bulkLoop cfg (fun _ => RecipientBehavior.outcome (fun _ => .sendOk)) message
            timestamp n rest (i + 1)
            ⟨st.sent ++ [v], st.failed, { st.stats with sent := st.stats.sent + 1 },
             if i % 10 = 0 then save_progress st.store (st.sent ++ [v]) st.failed
             else st.store⟩).1,
           .call v ::
             ((if i % 10 = 0 then
                 [DriverEv.save (st.sent ++ [v]) st.failed
                   { st.stats with sent := st.stats.sent + 1 }]
               else []) ++
              ((if i < n then [DriverEv.sleep cfg.message_delay] else []) ++
               (bulkLoop cfg (fun _ => RecipientBehavior.outcome (fun _ => .sendOk)) message
                 timestamp n rest (i + 1)
                 ⟨st.sent ++ [v], st.failed, { st.stats with sent := st.stats.sent + 1 },
                  if i % 10 = 0 then save_progress st.store (st.sent ++ [v]) st.failed
                  else st.store⟩).2))) := by
      simp only [bulkLoop]
      rw [send_allOk cfg v message timestamp st.stats r h]
      rfl
    rw [hstep]
    obtain ⟨ih1, ih2, ih3⟩ := ih (i + 1)
      ⟨st.sent ++ [v], st.failed, { st.stats with sent := st.stats.sent + 1 },
       if i % 10 = 0 then save_progress st.store (st.sent ++ [v]) st.failed else st.store⟩
    refine ⟨?_, ?_, ?_⟩
    · rw [ih1]
      simp
    · rw [ih2]
    · rw [savesOf_call, savesOf_append, savesOf_append, ih3]
      rw [List.length_cons, List.range_succ_eq_map, List.filterMap_cons,
        List.filterMap_map]
      have hfun : ((fun k =>
            if (i + k) % 10 = 0 then some (st.sent ++ (v :: rest).take (k + 1), st.failed)
            else none) ∘ Nat.succ)
          = (fun k =>
            if (i + 1 + k) % 10 = 0
            then some ((st.sent ++ [v]) ++ rest.take (k + 1), st.failed) else none) := by
        funext k
        have h10 : (i + (k + 1)) % 10 = (i + 1 + k) % 10 := by
          congr 1
          omega
        simp only [Function.comp, Nat.succ_eq_add_one, h10, List.take_succ_cons,
          List.append_assoc, List.cons_append, List.nil_append]
      rw [hfun]
      by_cases hi : i % 10 = 0 <;> by_cases hn : i < n <;>
        simp [hi, hn, savesOf]

end TelegramBulk

namespace TelegramBulk

/-- A fresh (`resume = false`) run in which every delivery succeeds on the
first attempt: the final sent list is the input list, no failed/skipped
records arise, and the checkpoints written are exactly those at 1-based
positions divisible by 10, plus the final save. -/
theorem send_bulk_allOk (cfg : Config) (message timestamp : String) (store : Store)
    (st : Stats) (r : Nat) (h : cfg.max_retries = r + 1) (users : List String)
    (hne : ¬ users = []) :
    (send_bulk_messages cfg (fun _ => RecipientBehavior.outcome (fun _ => .sendOk)) users
        message timestamp false store st).1.sent = users
    ∧ savesOf (send_bulk_messages cfg
        (fun _ => RecipientBehavior.outcome (fun _ => .sendOk)) users message timestamp
        false store st).2
      = (List.range users.length).filterMap (fun k =>
          if (1 + k) % 10 = 0 then some (users.take (k + 1), ([] : List SendResult))
          else none) ++ [(users, ([] : List SendResult))] := by
  obtain ⟨h1, h2, h3⟩ := bulkLoop_allOk cfg message timestamp users.length r h users 1
    ⟨[], [], { st with total := users.length }, store⟩
  constructor
  · simp only [send_bulk_messages, Bool.false_eq_true, if_false, if_neg hne]
    simp [h1]
  · simp only [send_bulk_messages, Bool.false_eq_true, if_false, if_neg hne]
    simp [savesOf_append, savesOf, h1, h2, h3]

end TelegramBulk

namespace TelegramBulk

/-- C7.  For any 25 identifiers, `resume = false`, and every delivery
succeeding on the first attempt (with at least one allowed attempt),
`send_bulk_messages` persists Campaign Progress exactly three times: after
recipients 10 and 20 and once more at run end after recipient 25, the
written sent collections having exactly 10, 20 and 25 entries respectively
(and the failed collections staying empty). -/
theorem checkpoint_schedule_25_users (u1 u2 u3 u4 u5 u6 u7 u8 u9 u10 u11 u12 u13 u14 u15 u16 u17 u18 u19 u20 u21 u22 u23 u24 u25 : String)
    (cfg : Config) (r : Nat) (st : Stats) (message timestamp : String) (store : Store)
    (h : cfg.max_retries = r + 1) :
    savesOf (send_bulk_messages cfg
        (fun _ => RecipientBehavior.outcome (fun _ => .sendOk))
        [u1, u2, u3, u4, u5, u6, u7, u8, u9, u10, u11, u12, u13, u14, u15, u16, u17, u18, u19, u20, u21, u22, u23, u24, u25] message timestamp false store st).2
      = [([u1, u2, u3, u4, u5, u6, u7, u8, u9, u10], []), ([u1, u2, u3, u4, u5, u6, u7, u8, u9, u10, u11, u12, u13, u14, u15, u16, u17, u18, u19, u20], []), ([u1, u2, u3, u4, u5, u6, u7, u8, u9, u10, u11, u12, u13, u14, u15, u16, u17, u18, u19, u20, u21, u22, u23, u24, u25], [])]
    ∧ (savesOf (send_bulk_messages cfg
        (fun _ => RecipientBehavior.outcome (fun _ => .sendOk))
        [u1, u2, u3, u4, u5, u6, u7, u8, u9, u10, u11, u12, u13, u14, u15, u16, u17, u18, u19, u20, u21, u22, u23, u24, u25] message timestamp false store st).2).map (fun p => p.1.length)
      = [10, 20, 25]
    ∧ (send_bulk_messages cfg (fun _ => RecipientBehavior.outcome (fun _ => .sendOk))
        [u1, u2, u3, u4, u5, u6, u7, u8, u9, u10, u11, u12, u13, u14, u15, u16, u17, u18, u19, u20, u21, u22, u23, u24, u25] message timestamp false store st).1.sent = [u1, u2, u3, u4, u5, u6, u7, u8, u9, u10, u11, u12, u13, u14, u15, u16, u17, u18, u19, u20, u21, u22, u23, u24, u25] := by
  obtain ⟨h1, h2⟩ := send_bulk_allOk cfg message timestamp store st r h
    [u1, u2, u3, u4, u5, u6, u7, u8, u9, u10, u11, u12, u13, u14, u15, u16, u17, u18, u19, u20, u21, u22, u23, u24, u25] (by simp)
  have e1 : savesOf (send_bulk_messages cfg
      (fun _ => RecipientBehavior.outcome (fun _ => .sendOk))
      [u1, u2, u3, u4, u5, u6, u7, u8, u9, u10, u11, u12, u13, u14, u15, u16, u17, u18, u19, u20, u21, u22, u23, u24, u25]
      message timestamp false store st).2
      = [([u1, u2, u3, u4, u5, u6, u7, u8, u9, u10], []),
         ([u1, u2, u3, u4, u5, u6, u7, u8, u9, u10, u11, u12, u13, u14, u15, u16, u17, u18, u19, u20], []),
         ([u1, u2, u3, u4, u5, u6, u7, u8, u9, u10, u11, u12, u13, u14, u15, u16, u17, u18, u19, u20, u21, u22, u23, u24, u25], [])] := by
    have hl : [u1, u2, u3, u4, u5, u6, u7, u8, u9, u10, u11, u12, u13, u14, u15, u16, u17,
        u18, u19, u20, u21, u22, u23, u24, u25].length = 25 := rfl
    rw [h2, hl]
    rfl
  refine ⟨e1, ?_, h1⟩
  rw [e1]
  rfl

end TelegramBulk

namespace TelegramBulk

/-- C7 witness: a concrete 25-recipient all-success run with
`max_retries = 3` checkpoints exactly at 10, 20 and at the end. -/
theorem checkpoint_schedule_25_users_witness :
    savesOf (send_bulk_messages { max_retries := 3 }
        (fun _ => RecipientBehavior.outcome (fun _ => .sendOk))
        ["x1", "x2", "x3", "x4", "x5", "x6", "x7", "x8", "x9", "x10", "x11", "x12", "x13", "x14", "x15", "x16", "x17", "x18", "x19", "x20", "x21", "x22", "x23", "x24", "x25"] "m" "t" false ⟨.absent, .absent⟩ ⟨0, 0, 0, 0⟩).2
      = [(["x1", "x2", "x3", "x4", "x5", "x6", "x7", "x8", "x9", "x10"], []), (["x1", "x2", "x3", "x4", "x5", "x6", "x7", "x8", "x9", "x10", "x11", "x12", "x13", "x14", "x15", "x16", "x17", "x18", "x19", "x20"], []), (["x1", "x2", "x3", "x4", "x5", "x6", "x7", "x8", "x9", "x10", "x11", "x12", "x13", "x14", "x15", "x16", "x17", "x18", "x19", "x20", "x21", "x22", "x23", "x24", "x25"], [])]
    ∧ (savesOf (send_bulk_messages { max_retries := 3 }
        (fun _ => RecipientBehavior.outcome (fun _ => .sendOk))
        ["x1", "x2", "x3", "x4", "x5", "x6", "x7", "x8", "x9", "x10", "x11", "x12", "x13", "x14", "x15", "x16", "x17", "x18", "x19", "x20", "x21", "x22", "x23", "x24", "x25"] "m" "t" false ⟨.absent, .absent⟩ ⟨0, 0, 0, 0⟩).2).map (fun p => p.1.length)
      = [10, 20, 25]
    ∧ (send_bulk_messages { max_retries := 3 }
        (fun _ => RecipientBehavior.outcome (fun _ => .sendOk))
        ["x1", "x2", "x3", "x4", "x5", "x6", "x7", "x8", "x9", "x10", "x11", "x12", "x13", "x14", "x15", "x16", "x17", "x18", "x19", "x20", "x21", "x22", "x23", "x24", "x25"] "m" "t" false ⟨.absent, .absent⟩ ⟨0, 0, 0, 0⟩).1.sent = ["x1", "x2", "x3", "x4", "x5", "x6", "x7", "x8", "x9", "x10", "x11", "x12", "x13", "x14", "x15", "x16", "x17", "x18", "x19", "x20", "x21", "x22", "x23", "x24", "x25"] :=
  checkpoint_schedule_25_users "x1" "x2" "x3" "x4" "x5" "x6" "x7" "x8" "x9" "x10" "x11" "x12" "x13" "x14" "x15" "x16" "x17" "x18" "x19" "x20" "x21" "x22" "x23" "x24" "x25"
    { max_retries := 3 } 2 ⟨0, 0, 0, 0⟩ "m" "t" ⟨.absent, .absent⟩ rfl

end TelegramBulk
